import Mathlib

set_option maxRecDepth 8000

/-!
# Verification of the jah-bless letter formatter

Shallow embedding of `src/app/src/utils/pdf-generator.ts` (`generatePDF`)
and `src/app/src/utils/local-storage.ts` into Lean 4, with theorems
settling the specification claims about them.

Conventions of the embedding:
* All coordinates are rationals (`ℚ`); jsPDF works with IEEE doubles, but
  every arithmetic operation performed by `generatePDF` on the layout cursor
  (additions of small decimal constants, one division for the aspect ratio)
  is exact in `ℚ` for the inputs considered.
* The jsPDF document is modelled as the list of draw instructions
  (positioned text runs and image boxes) that `generatePDF` issues, in
  order.  Font/size/color setter calls do not affect geometry or the
  claims under scrutiny and are not part of the instruction stream.
* `doc.splitTextToSize` belongs to the external Document Renderer; it is
  passed in as an explicit wrapping function `wrap : String → List String`.
* `new Date().toLocaleDateString(...)` depends on the ambient clock; the
  produced date string is passed in as an explicit parameter `dateStr`.
* The signature `Image` object is modelled by `SigImage`: its `data` URL,
  whether `img.complete && img.naturalWidth > 0 && img.naturalHeight > 0`
  held synchronously (`loaded`), the natural dimensions, and whether
  `doc.addImage` throws on it (`embedFails`).  The `img.onload` callback
  fires after `doc.save` and never contributes to the saved document, so
  it is not part of the synchronous instruction stream.
-/

namespace CoverLetter

/-- The character class matched by the JavaScript regex escape `\s`
(restricted to the ASCII whitespace actually occurring in letter text). -/
def isWS (c : Char) : Bool :=
  c == ' ' || c == '\t' || c == '\n' || c == '\r' || c == '\x0b' || c == '\x0c'

/-- `s.replace(/\s+/g, '')`: remove every whitespace character. -/
def stripAllWS (s : String) : String :=
  String.mk (s.data.filter (fun c => !isWS c))

/-- JavaScript `String.prototype.trim` (whitespace stripped from both ends). -/
def trimStr (s : String) : String :=
  String.mk (((s.data.dropWhile isWS).reverse.dropWhile isWS).reverse)

/-- JavaScript `String.prototype.toLowerCase` (on the ASCII letters of
letter text). -/
def lowerStr (s : String) : String :=
  String.mk (s.data.map Char.toLower)

/-- `needle` is a prefix of `hay`. -/
def startsList : List Char → List Char → Bool
  | [], _ => true
  | _ :: _, [] => false
  | n :: ns, h :: hs => n == h && startsList ns hs

/-- `needle` occurs somewhere in `hay`. -/
def occursIn (needle : List Char) : List Char → Bool
  | [] => startsList needle []
  | c :: cs => startsList needle (c :: cs) || occursIn needle cs

/-- JavaScript `String.prototype.includes`: `containsStr s sub` is true iff
`sub` occurs as a substring of `s` (the empty string occurs in every string). -/
def containsStr (s sub : String) : Bool :=
  occursIn sub.data s.data

/-- JavaScript `s.split('\n')` on the character list. -/
def splitNlChars : List Char → List (List Char)
  | [] => [[]]
  | c :: cs =>
    let r := splitNlChars cs
    if c == '\n' then [] :: r
    else
      match r with
      | [] => [[c]]
      | g :: gs => (c :: g) :: gs

/-- JavaScript `s.split('\n')`. -/
def splitNl (s : String) : List String :=
  (splitNlChars s.data).map String.mk

/-- JavaScript `lines.join('\n')`. -/
def joinNl : List String → String
  | [] => ""
  | [s] => s
  | s :: rest => s ++ "\n" ++ joinNl rest

/-- JavaScript `s.endsWith(':')`. -/
def endsColon (s : String) : Bool :=
  match s.data.reverse with
  | ':' :: _ => true
  | _ => false

/-- JavaScript string truthiness: a string is truthy iff it is nonempty.
`generatePDF` guards every optional field with bare truthiness tests. -/
def truthy (s : String) : Bool :=
  s != ""

/-- Match a literal pattern fragment case-insensitively (the fragment is given
in lower case) against the front of a character list, returning the rest. -/
def stripLit : List Char → List Char → Option (List Char)
  | [], cs => some cs
  | _ :: _, [] => none
  | l :: ls, c :: cs => if c.toLower == l then stripLit ls cs else none

/-- Match the regex fragment `\s+` (greedily) against the front of a character
list, returning the rest. -/
def wsPlus : List Char → Option (List Char)
  | [] => none
  | c :: cs => if isWS c then some (cs.dropWhile isWS) else none

/-- Match the regex fragment `[,\s]*$`. -/
def commaWsTail (cs : List Char) : Bool :=
  cs.all (fun c => c == ',' || isWS c)

/-- Match `Hiring\s+Manager[,\s]*$` case-insensitively. -/
def hmTail (cs : List Char) : Bool :=
  match stripLit "hiring".data cs with
  | none => false
  | some r1 =>
    match wsPlus r1 with
    | none => false
    | some r2 =>
      match stripLit "manager".data r2 with
      | none => false
      | some r3 => commaWsTail r3

/-- Match `lit[,\s]*$` case-insensitively. -/
def litTail (lit : String) (cs : List Char) : Bool :=
  match stripLit lit.data cs with
  | none => false
  | some r => commaWsTail r

/-- The regex `/^Dear\s+(Hiring\s+Manager|Sir|Madam|Mr\.|Mrs\.|Ms\.|Dr\.)[,\s]*$/i`. -/
def salutation1 (s : String) : Bool :=
  match stripLit "dear".data s.data with
  | none => false
  | some r1 =>
    match wsPlus r1 with
    | none => false
    | some r2 =>
      hmTail r2 || litTail "sir" r2 || litTail "madam" r2 ||
      litTail "mr." r2 || litTail "mrs." r2 || litTail "ms." r2 || litTail "dr." r2

/-- The regex `/^Dear\s+Hiring\s+Manager[,]?$/i`. -/
def salutation2 (s : String) : Bool :=
  match stripLit "dear".data s.data with
  | none => false
  | some r1 =>
    match wsPlus r1 with
    | none => false
    | some r2 =>
      match stripLit "hiring".data r2 with
      | none => false
      | some r3 =>
        match wsPlus r3 with
        | none => false
        | some r4 =>
          match stripLit "manager".data r4 with
          | none => false
          | some r5 => r5 == [] || r5 == [',']

/-- The regex `/^Hi\s+there[,]?$/i`. -/
def salutation3 (s : String) : Bool :=
  match stripLit "hi".data s.data with
  | none => false
  | some r1 =>
    match wsPlus r1 with
    | none => false
    | some r2 =>
      match stripLit "there".data r2 with
      | none => false
      | some r3 => r3 == [] || r3 == [',']

/-- `salutationPatterns.some(pattern => pattern.test(firstLine))`
(pdf-generator.ts lines 105-112). -/
def salutationHit (s : String) : Bool :=
  salutation1 s || salutation2 s || salutation3 s

/-- The closing-line regex
`/^(Sincerely|Best regards|Regards|Yours sincerely|Yours truly|Respectfully),?$/i`,
applied (as at every call site) to an already-trimmed line. -/
def closingHit (s : String) : Bool :=
  let t := lowerStr s
  let eqc := fun (w : String) => t == w || t == w ++ ","
  eqc "sincerely" || eqc "best regards" || eqc "regards" ||
  eqc "yours sincerely" || eqc "yours truly" || eqc "respectfully"

/-- The body-layout salutation test `/^Dear\s+(.+?)[:,]?$/i.test(line)`:
the line starts with `Dear`, followed by at least one whitespace character,
followed by at least one further character. -/
def isSalutationLine (s : String) : Bool :=
  match s.data with
  | d :: e :: a :: r :: w :: rest =>
    d.toLower == 'd' && e.toLower == 'e' && a.toLower == 'a' && r.toLower == 'r' &&
    isWS w && !rest.isEmpty
  | _ => false

/-- `firstLine.replace(/[,]?\s*$/, ':')`: drop trailing whitespace, drop one
trailing comma, append a colon (pdf-generator.ts line 115). -/
def fixSalutation (s : String) : String :=
  let r1 := s.data.reverse.dropWhile isWS
  let r2 := match r1 with
            | ',' :: rest => rest
            | _ => r1
  String.mk r2.reverse ++ ":"

/-- The options record of `generatePDF` (interface `PDFOptions`).  Optional
string fields are modelled as strings with `""` standing for an
absent/undefined field, matching the truthiness tests of the source. -/
structure SigImage where
  data : String
  loaded : Bool
  naturalWidth : ℚ
  naturalHeight : ℚ
  embedFails : Bool
deriving DecidableEq, Repr

structure PDFOptions where
  fullName : String := ""
  email : String := ""
  phone : String := ""
  companyName : String := ""
  signature : Option SigImage := none
deriving DecidableEq, Repr

/-- Salutation normalization (pdf-generator.ts lines 99-122): the first line
is trimmed; if it matches a salutation pattern (and does not already end in a
colon) its trailing punctuation is rewritten to a colon; otherwise, when a
company name was supplied, a synthesized salutation is prepended. -/
def normalizeSalutation (o : PDFOptions) (content : String) : String :=
  match splitNl content with
  | [] => content
  | first :: rest =>
    let firstLine := trimStr first
    if salutationHit firstLine then
      if !(endsColon firstLine) then
        joinNl (fixSalutation firstLine :: rest)
      else content
    else if truthy o.companyName then
      "Dear Hiring Manager:\n\n" ++ content
    else content

/-- One post-closing line matches the sender's contact info
(pdf-generator.ts lines 149-172): it case-insensitively equals or contains
the full name or email, or (with all whitespace removed) equals, contains,
or is contained in the phone number. -/
def contactHit (o : PDFOptions) (line : String) : Bool :=
  let tl := lowerStr (trimStr line)
  (truthy o.fullName &&
    (tl == lowerStr o.fullName || containsStr tl (lowerStr o.fullName))) ||
  (truthy o.email &&
    (tl == lowerStr o.email || containsStr tl (lowerStr o.email))) ||
  (truthy o.phone &&
    (let pl := stripAllWS (lowerStr o.phone)
     let tp := stripAllWS tl
     tp == pl || containsStr tp pl || containsStr pl tp))

/-- The filter predicate of pdf-generator.ts lines 145-175: a post-closing
line is dropped when it is blank (`if (!trimmed) return false`) or matches
the sender's contact info. -/
def droppedLine (o : PDFOptions) (line : String) : Bool :=
  trimStr line == "" || contactHit o line

/-- Contact-info removal on the line list (pdf-generator.ts lines 128-177):
find the first closing line; keep everything up to and including it; filter
the lines after it. -/
def findClosingIdx : ℕ → List String → Option ℕ
  | _, [] => none
  | i, l :: ls => if closingHit (trimStr l) then some i else findClosingIdx (i + 1) ls

def removeContactLines (o : PDFOptions) (lines : List String) : List String :=
  match findClosingIdx 0 lines with
  | some i => lines.take (i + 1) ++ (lines.drop (i + 1)).filter (fun l => !droppedLine o l)
  | none => lines

/-- Contact-info removal (pdf-generator.ts lines 125-179), performed only when
some sender contact field is truthy. -/
def removeContactInfo (o : PDFOptions) (content : String) : String :=
  if truthy o.fullName || truthy o.email || truthy o.phone then
    joinNl (removeContactLines o (splitNl content))
  else content

/-- The normalized ("cleaned") content on which body layout and the
signature-block decision operate. -/
def cleanContent (o : PDFOptions) (content : String) : String :=
  removeContactInfo o (normalizeSalutation o content)

/-! ## Page geometry and layout constants (pdf-generator.ts lines 20-35)

`new jsPDF()` creates an A4 portrait document in millimetres; jsPDF stores
the A4 format as 595.28 × 841.89 points and divides by the scale factor
72 / 25.4, so `getHeight()` returns 841.89 · 25.4 / 72 = 3564001/12000 mm. -/

def pageHeight : ℚ := 3564001 / 12000
def topMargin : ℚ := 30
def leftMargin : ℚ := 25
def bottomMargin : ℚ := 25
def lineHeight : ℚ := 6
def paragraphSpacing : ℚ := 7

/-- A draw instruction issued to the jsPDF document: a positioned text run
or an embedded image box.  `page` counts pages from 0; `x`, `y` are the
coordinates passed to `doc.text` / `doc.addImage`. -/
inductive Instr where
  | text (page : ℕ) (x y : ℚ) (s : String)
  | image (page : ℕ) (x y : ℚ) (w h : ℚ) (data : String)
deriving DecidableEq, Repr

def instrY : Instr → ℚ
  | .text _ _ y _ => y
  | .image _ _ y _ _ _ => y

def instrPage : Instr → ℕ
  | .text p _ _ _ => p
  | .image p _ _ _ _ _ => p

/-- The mutable layout cursor of `generatePDF`: current page and vertical
offset `y`. -/
structure LS where
  page : ℕ
  y : ℚ
deriving DecidableEq, Repr

/-- Emit one text line at the cursor if `cond` holds, advancing `y` by `dy`
(the conditional emissions of the header block). -/
def optLine (cond : Bool) (s : String) (dy : ℚ) (st : LS) : List Instr × LS :=
  if cond then
    ([Instr.text st.page leftMargin st.y s], { st with y := st.y + dy })
  else ([], st)

/-- Sender header block (pdf-generator.ts lines 40-68): name, then email,
then phone, each advanced by its fixed increment, with a trailing
`paragraphSpacing + 3` gap — emitted only if some field is truthy. -/
def headerBlock (o : PDFOptions) (st : LS) : List Instr × LS :=
  if truthy o.fullName || truthy o.email || truthy o.phone then
    let r1 := optLine (truthy o.fullName) o.fullName (lineHeight + 3/2) st
    let r2 := optLine (truthy o.email) o.email (lineHeight - 1/2) r1.2
    let r3 := optLine (truthy o.phone) o.phone (lineHeight - 1/2) r2.2
    (r1.1 ++ r2.1 ++ r3.1, { r3.2 with y := r3.2.y + paragraphSpacing + 3 })
  else ([], st)

/-- Date block (pdf-generator.ts lines 71-82): the locale-formatted current
date is always emitted at the cursor. -/
def dateBlock (dateStr : String) (st : LS) : List Instr × LS :=
  ([Instr.text st.page leftMargin st.y dateStr], { st with y := st.y + paragraphSpacing + 5 })

/-- Recipient block (pdf-generator.ts lines 86-94): the company name when
truthy (advancing by `paragraphSpacing + 5`), else only a
`paragraphSpacing` advance. -/
def recipientBlock (o : PDFOptions) (st : LS) : List Instr × LS :=
  if truthy o.companyName then
    ([Instr.text st.page leftMargin st.y o.companyName], { st with y := st.y + paragraphSpacing + 5 })
  else ([], { st with y := st.y + paragraphSpacing })

/-! ## Body layout (pdf-generator.ts lines 187-259)

The source splits the cleaned content into paragraphs with
`split(/\n\s*\n/).filter(p => p.trim())` and then each paragraph into
`split('\n').map(l => l.trim()).filter(l => l)`.  The regex
`/\n\s*\n/` cuts exactly at maximal runs of blank (whitespace-only) lines,
and the per-paragraph filter then drops any blank line, so the composition
equals: trim every line, then group the maximal runs of nonblank lines. -/

def groupFlush (acc : List (List String) × List String) : List (List String) :=
  match acc.2 with
  | [] => acc.1
  | cur => acc.1 ++ [cur.reverse]

def groupStep (acc : List (List String) × List String) (s : String) :
    List (List String) × List String :=
  if s == "" then (groupFlush acc, [])
  else (acc.1, s :: acc.2)

/-- Group a line list into the maximal runs of nonempty lines. -/
def groupNonEmpty (ls : List String) : List (List String) :=
  groupFlush (ls.foldl groupStep ([], []))

/-- Emit the word-wrapped sub-lines of one source line
(pdf-generator.ts lines 216-247): before each sub-line, if the projected
offset would exceed the printable area, start a new page and reset the
cursor to the top margin; then draw the sub-line and advance by
`lineHeight`. -/
def emitSubLines : LS → List String → List Instr × LS
  | st, [] => ([], st)
  | st, w :: ws =>
    let st1 := if pageHeight - bottomMargin < st.y + lineHeight
               then ({ page := st.page + 1, y := topMargin } : LS)
               else st
    let r := emitSubLines { st1 with y := st1.y + lineHeight } ws
    (Instr.text st1.page leftMargin st1.y w :: r.1, r.2)

/-- Lay out one (already trimmed, nonempty) paragraph line
(pdf-generator.ts lines 192-253): extra spacing before a first-paragraph
salutation and before a closing line, the wrapped sub-lines, and the
post-closing spacing. -/
def emitLine (wrap : String → List String) (paraIndex : ℕ) (st : LS) (line : String) :
    List Instr × LS :=
  let st1 := if isSalutationLine line && decide (paraIndex = 0)
             then { st with y := st.y + paragraphSpacing / 2 } else st
  let st2 := if closingHit line
             then { st1 with y := st1.y + paragraphSpacing + 2 } else st1
  let r := emitSubLines st2 (wrap line)
  (r.1, if closingHit line then { r.2 with y := r.2.y + lineHeight * 5 / 2 } else r.2)

def emitLines (wrap : String → List String) (paraIndex : ℕ) :
    LS → List String → List Instr × LS
  | st, [] => ([], st)
  | st, l :: ls =>
    let r1 := emitLine wrap paraIndex st l
    let r2 := emitLines wrap paraIndex r1.2 ls
    (r1.1 ++ r2.1, r2.2)

/-- Lay out the paragraphs (pdf-generator.ts lines 189-259), inserting
`paragraphSpacing + 1` between consecutive paragraphs (not after the last). -/
def emitParagraphs (wrap : String → List String) (total : ℕ) :
    ℕ → LS → List (List String) → List Instr × LS
  | _, st, [] => ([], st)
  | idx, st, p :: ps =>
    let r1 := emitLines wrap idx st p
    let st1 := if idx < total - 1
               then { r1.2 with y := r1.2.y + paragraphSpacing + 1 } else r1.2
    let r2 := emitParagraphs wrap total (idx + 1) st1 ps
    (r1.1 ++ r2.1, r2.2)

def bodyLayout (wrap : String → List String) (st : LS) (content : String) :
    List Instr × LS :=
  let paras := groupNonEmpty ((splitNl content).map trimStr)
  emitParagraphs wrap paras.length 0 st paras

/-! ## Signature block (pdf-generator.ts lines 262-395) -/

/-- The three content conditions guarding the signature block
(pdf-generator.ts lines 263-274): a truthy sender name, the last nonblank
line of the cleaned content matches a closing pattern, and the name does not
already occur (case-insensitively) in the cleaned content. -/
def sigConditions (o : PDFOptions) (cleaned : String) : Bool :=
  let hasNameInContent := truthy o.fullName && containsStr (lowerStr cleaned) (lowerStr o.fullName)
  let lastLines := (splitNl cleaned).filter (fun l => trimStr l != "")
  let lastLine := trimStr (lastLines.getLast?.getD "")
  truthy o.fullName && closingHit lastLine && !hasNameInContent

/-- Signature image autofit (pdf-generator.ts lines 296-311), for aspect
ratio `a = naturalHeight / naturalWidth`: start from the maximum width 100;
cap the height at 30 (rescaling the width); then enforce the minimum width
floor 50 (rescaling the height). -/
def sigDims (a : ℚ) : ℚ × ℚ :=
  let w1 : ℚ := 100
  let h1 := w1 * a
  let wh2 := if 30 < h1 then ((30 : ℚ) / a, (30 : ℚ)) else (w1, h1)
  if wh2.1 < 50 then ((50 : ℚ), 50 * a) else wh2

/-- Estimated dimensions when the image has not loaded synchronously
(pdf-generator.ts lines 350-358): fallback aspect ratio 200/800, width 100,
height capped at 30 (no minimum-width floor on this path). -/
def sigEstDims : ℚ × ℚ :=
  let a : ℚ := 200 / 800
  let h1 := 100 * a
  if 30 < h1 then ((30 : ℚ) / a, (30 : ℚ)) else ((100 : ℚ), h1)

/-- The image part of the signature block (pdf-generator.ts lines 284-386):
with a truthy image, either the synchronous autofit path, the
estimated-dimensions path, or — when `doc.addImage` throws — the fixed
80 × 20 fallback of the catch block (at the unadvanced cursor, since the
`y += …` after a throwing `addImage` is never reached); with no image,
blank space (`lineHeight * 2`) is reserved for a handwritten signature. -/
def sigImageInstrs (o : PDFOptions) (st : LS) : List Instr × LS :=
  match o.signature with
  | some sig =>
    if trimStr sig.data != "" then
      if sig.embedFails then
        ([Instr.image st.page leftMargin st.y 80 20 sig.data],
         { st with y := st.y + 20 + lineHeight * 3 / 2 })
      else if sig.loaded && decide (0 < sig.naturalWidth) && decide (0 < sig.naturalHeight) then
        let wh := sigDims (sig.naturalHeight / sig.naturalWidth)
        ([Instr.image st.page leftMargin st.y wh.1 wh.2 sig.data],
         { st with y := st.y + wh.2 + lineHeight * 3 / 2 })
      else
        ([Instr.image st.page leftMargin st.y sigEstDims.1 sigEstDims.2 sig.data],
         { st with y := st.y + sigEstDims.2 + lineHeight * 3 / 2 })
    else ([], { st with y := st.y + lineHeight * 2 })
  | none => ([], { st with y := st.y + lineHeight * 2 })

/-- The signature block (pdf-generator.ts lines 274-395): guarded by the
three content conditions *and* `y < pageHeight - bottomMargin - lineHeight*3`;
inside, either a page break (when `y + lineHeight*5` overflows) or a
`lineHeight * 1.5` gap, then the image part, then the typed sender name. -/
def signatureBlock (o : PDFOptions) (cleaned : String) (st : LS) : List Instr × LS :=
  if sigConditions o cleaned = true ∧
     st.y < pageHeight - bottomMargin - lineHeight * 3 then
    let st1 := if pageHeight - bottomMargin < st.y + lineHeight * 5
               then ({ page := st.page + 1, y := topMargin } : LS)
               else { st with y := st.y + lineHeight * 3 / 2 }
    let r := sigImageInstrs o st1
    (r.1 ++ [Instr.text r.2.page leftMargin r.2.y o.fullName], r.2)
  else ([], st)

/-- All phases before the signature block, from the initial cursor
`{ page := 0, y := topMargin }`. -/
def generatePDFMain (content : String) (o : PDFOptions) (dateStr : String)
    (wrap : String → List String) : List Instr × LS :=
  let r1 := headerBlock o { page := 0, y := topMargin }
  let r2 := dateBlock dateStr r1.2
  let r3 := recipientBlock o r2.2
  let r4 := bodyLayout wrap r3.2 (cleanContent o content)
  (r1.1 ++ r2.1 ++ r3.1 ++ r4.1, r4.2)

/-- The full instruction stream of `generatePDF`. -/
def generatePDF (content : String) (o : PDFOptions) (dateStr : String)
    (wrap : String → List String) : List Instr :=
  let m := generatePDFMain content o dateStr wrap
  m.1 ++ (signatureBlock o (cleanContent o content) m.2).1

/-! ## The persisted defaults record (local-storage.ts) -/

structure DefaultsConfig where
  fullName : String
  email : String
  phone : String
  techStack : String
deriving DecidableEq, Repr

/-- The record returned when nothing (valid) is stored. -/
def emptyDefaults : DefaultsConfig := ⟨"", "", "", ""⟩

/-- The browser `localStorage` as seen through the single key
`cover-letter-defaults`: the stored value (if any), and whether the storage
operations throw (storage disabled, quota exceeded, …). -/
structure Store where
  data : Option String
  failing : Bool
deriving DecidableEq, Repr

/-- `loadDefaults` (local-storage.ts lines 17-33).  `parse` models
`JSON.parse`, with `none` standing for a parse exception.  Returns the
loaded record together with the `console.error` diagnostics; every failure
path falls back to `emptyDefaults`. -/
def loadDefaults (parse : String → Option DefaultsConfig) (st : Store) :
    DefaultsConfig × List String :=
  if st.failing then
    (emptyDefaults, ["Failed to load defaults from localStorage:"])
  else
    match st.data with
    | some s =>
      if truthy s then
        match parse s with
        | some c => (c, [])
        | none => (emptyDefaults, ["Failed to load defaults from localStorage:"])
      else (emptyDefaults, [])
    | none => (emptyDefaults, [])

/-- `saveDefaults` (local-storage.ts lines 38-44): on failure the store is
left unchanged and a diagnostic is logged. -/
def saveDefaults (d : DefaultsConfig) (serialize : DefaultsConfig → String) (st : Store) :
    Store × List String :=
  if st.failing then (st, ["Failed to save defaults to localStorage:"])
  else ({ st with data := some (serialize d) }, [])

/-- `clearDefaults` (local-storage.ts lines 49-55): on failure the store is
left unchanged and a diagnostic is logged. -/
def clearDefaults (st : Store) : Store × List String :=
  if st.failing then (st, ["Failed to clear defaults from localStorage:"])
  else ({ st with data := none }, [])

/-! ## Concrete inputs used by the counterexamples and witnesses -/

/-- A 10 × 100 (tall) signature image with synchronously known dimensions. -/
def tallSigOpts : PDFOptions :=
  { fullName := "Jane Doe",
    signature := some { data := "sig", loaded := true, naturalWidth := 10,
                        naturalHeight := 100, embedFails := false } }

/-- A letter body of 27 filler lines followed by a closing, filling the
first page down to `y = 258.5` — past the signature-block threshold. -/
def fullPageContent : String :=
  joinNl (List.replicate 27 "Filler line." ++ ["Sincerely,"])

def nameOnlyOpts : PDFOptions := { fullName := "Jane Doe" }

def nameEmailOpts : PDFOptions := { fullName := "Jane Doe", email := "jane@x.com" }

def acmeOpts : PDFOptions := { companyName := "Acme" }

/-- A signature image whose dimensions are not synchronously available. -/
def unloadedSigOpts : PDFOptions :=
  { fullName := "Jane Doe",
    signature := some { data := "sig", loaded := false, naturalWidth := 0,
                        naturalHeight := 0, embedFails := false } }

/-- A signature image on which `doc.addImage` throws. -/
def failingSigOpts : PDFOptions :=
  { fullName := "Jane Doe",
    signature := some { data := "sig", loaded := false, naturalWidth := 0,
                        naturalHeight := 0, embedFails := true } }

/-! ## Theorems -/

/-- **C3, counterexample.** The output of `generatePDF` is *not* a function
of the `(content, options, profile)` tuple alone: the date block emits the
locale-formatted *current* date, so two invocations with the identical input
tuple on different days produce different instruction sequences. -/
theorem C3_counterexample :
    generatePDF "Hello" {} "January 1, 2025" (fun s => [s]) ≠
      generatePDF "Hello" {} "January 2, 2025" (fun s => [s]) := by
  norm_num +decide [generatePDF, generatePDFMain, headerBlock, dateBlock, recipientBlock,
    bodyLayout, cleanContent, normalizeSalutation, removeContactInfo, truthy,
    signatureBlock, sigConditions, groupNonEmpty, groupStep, groupFlush,
    emitParagraphs, emitLines, emitLine, emitSubLines, splitNl,
    joinNl, optLine, pageHeight, topMargin, leftMargin, bottomMargin, lineHeight,
    paragraphSpacing]

/-- **C3, amended.** For a fixed ambient state — the current-date string and
the synchronous image-availability recorded in the options — the formatter is
a pure function: re-invoking it on the same arguments yields the identical
instruction sequence.  (The claim as stated fails because the emitted date
line depends on the invocation time, not on the input tuple.) -/
theorem C3_amended (content : String) (o : PDFOptions) (dateStr : String)
    (wrap : String → List String) :
    generatePDF content o dateStr wrap = generatePDF content o dateStr wrap := rfl

/-- **C4, counterexample.** For a 10 × 100 signature image (aspect ratio 10)
the autofit computation returns width 50 and height 500: the minimum-width
floor rescales the height *after* the height cap, so the claimed bound
`height ≤ 30` is violated. -/
theorem C4_counterexample :
    (sigDims ((100 : ℚ) / 10)).1 = 50 ∧ (sigDims ((100 : ℚ) / 10)).2 = 500 ∧
      ¬ (sigDims ((100 : ℚ) / 10)).2 ≤ 30 := by
  norm_num [sigDims]

/-- **C4, amended.** For every positive aspect ratio `a`, the computed
dimensions preserve the aspect ratio exactly and the width always lies in
`[50, 100]`; the height bound `≤ 30` however holds only when `a ≤ 3/5` —
when the minimum-width floor engages (`a > 3/5`) the height becomes `50·a`,
which exceeds the 30-unit envelope. -/
theorem C4_amended (a : ℚ) (ha : 0 < a) :
    (sigDims a).2 = (sigDims a).1 * a ∧
    50 ≤ (sigDims a).1 ∧ (sigDims a).1 ≤ 100 ∧
    (a ≤ 3 / 5 → (sigDims a).2 ≤ 30) := by
  have ha' : a ≠ 0 := ne_of_gt ha
  simp only [sigDims]
  split_ifs with h1 h2 h3
  · -- height was capped, then the width floor engaged
    dsimp only at h2 ⊢
    have h35 : 3 / 5 < a := by
      rw [div_lt_iff₀ ha] at h2
      linarith
    exact ⟨rfl, le_refl _, by norm_num, fun hle => absurd hle (by linarith)⟩
  · -- height capped, width stays in range
    dsimp only at h2 ⊢
    refine ⟨(div_mul_cancel₀ 30 ha').symm, le_of_not_lt h2, ?_, fun _ => le_refl _⟩
    rw [div_le_iff₀ ha]
    linarith
  · -- no height cap, but width floor (impossible: width is 100)
    dsimp only at h3
    norm_num at h3
  · -- no height cap, no floor
    dsimp only at h1 ⊢
    exact ⟨rfl, by norm_num, le_refl _, fun _ => by linarith⟩

/-- **C4, witness** for the amended theorem at aspect ratio 1/4 (an 800 × 200
image): dimensions 100 × 25. -/
theorem C4_amended_witness :
    (sigDims (1 / 4)).2 = (sigDims (1 / 4)).1 * (1 / 4) ∧
    50 ≤ (sigDims (1 / 4)).1 ∧ (sigDims (1 / 4)).1 ≤ 100 ∧
    ((1 : ℚ) / 4 ≤ 3 / 5 → (sigDims (1 / 4)).2 ≤ 30) :=
  C4_amended (1 / 4) (by norm_num)

/-- **C5, counterexample.** With every sender field and the company name
absent, the header and recipient blocks are omitted, but the first body line
is *not* drawn at the top margin: the date line is always emitted at the top
margin, and the body starts below it at `y = 49 ≠ 30 = topMargin`. -/
theorem C5_counterexample :
    generatePDF "Hello" {} "January 1, 2025" (fun s => [s]) =
      [Instr.text 0 25 30 "January 1, 2025", Instr.text 0 25 49 "Hello"] ∧
    (49 : ℚ) ≠ topMargin := by
  constructor
  · norm_num +decide [generatePDF, generatePDFMain, headerBlock, dateBlock, recipientBlock,
      bodyLayout, cleanContent, normalizeSalutation, removeContactInfo, truthy,
      signatureBlock, sigConditions, groupNonEmpty, groupStep, groupFlush,
      emitParagraphs, emitLines, emitLine, emitSubLines, splitNl,
      joinNl, optLine, pageHeight, topMargin, leftMargin, bottomMargin, lineHeight,
      paragraphSpacing]
  · norm_num [topMargin]

/-- **C5, amended.** When every sender field and the company name are empty,
no header-block or recipient-block text is emitted; the date line is still
drawn at the top margin, and the body layout starts at
`y = topMargin + (paragraphSpacing + 5) + paragraphSpacing = 49`. -/
theorem C5_amended (content dateStr : String) (wrap : String → List String) :
    generatePDF content {} dateStr wrap =
      Instr.text 0 leftMargin topMargin dateStr ::
        (bodyLayout wrap { page := 0, y := 49 } (normalizeSalutation {} content)).1 := by
  norm_num +decide [generatePDF, generatePDFMain, headerBlock, dateBlock, recipientBlock,
    cleanContent, removeContactInfo, truthy, signatureBlock, sigConditions,
    optLine, topMargin, leftMargin, paragraphSpacing]

/-- **C7, counterexample.** The normalization examines `lines[0]`, not the
first *non-empty* line: for the content `"\nDear Sir,\n\nBody"` with a
recipient company, the first non-empty line `"Dear Sir,"` matches a
salutation pattern and lacks a colon, yet it is left unchanged and a second,
synthesized salutation is prepended instead. -/
theorem C7_counterexample :
    normalizeSalutation acmeOpts "\nDear Sir,\n\nBody" =
      "Dear Hiring Manager:\n\n\nDear Sir,\n\nBody" ∧
    (splitNl "\nDear Sir,\n\nBody").find? (fun l => trimStr l != "") = some "Dear Sir," ∧
    salutationHit "Dear Sir," = true ∧ endsColon "Dear Sir," = false := by decide

/-- **C7, amended.** The normalization examines the *first line* (trimmed):
if it matches a salutation pattern and lacks a trailing colon, its trailing
punctuation is rewritten to a colon; if it is not a salutation and a company
name was supplied, `Dear Hiring Manager:` plus a blank line is prepended; in
particular `"Dear Hiring Manager,\n\nBody"` yields the first content line
`"Dear Hiring Manager:"`. -/
theorem C7_amended (o : PDFOptions) (content first : String) (rest : List String)
    (hsplit : splitNl content = first :: rest) :
    (salutationHit (trimStr first) = true → endsColon (trimStr first) = false →
      normalizeSalutation o content = joinNl (fixSalutation (trimStr first) :: rest)) ∧
    (salutationHit (trimStr first) = false → truthy o.companyName = true →
      normalizeSalutation o content = "Dear Hiring Manager:\n\n" ++ content) ∧
    normalizeSalutation o "Dear Hiring Manager,\n\nBody" = "Dear Hiring Manager:\n\nBody" := by
  refine ⟨fun hs hc => ?_, fun hs hc => ?_, ?_⟩
  · simp [normalizeSalutation, hsplit, hs, hc]
  · simp [normalizeSalutation, hsplit, hs, hc]
  · have h : splitNl "Dear Hiring Manager,\n\nBody" =
        ["Dear Hiring Manager,", "", "Body"] := by decide
    simp only [normalizeSalutation, h]
    norm_num +decide

/-- **C7, witness** for the amended theorem: content `"Dear Sir,\n\nBody"`
(first line a comma-terminated salutation) gets its salutation rewritten. -/
theorem C7_amended_witness :
    normalizeSalutation acmeOpts "Dear Sir,\n\nBody" =
      joinNl (fixSalutation (trimStr "Dear Sir,") :: ["", "Body"]) :=
  (C7_amended acmeOpts "Dear Sir,\n\nBody" "Dear Sir," ["", "Body"] (by decide)).1
    (by decide) (by decide)

/-- **C9, confirmed.** Failure handling of the persisted defaults record:
when reading throws (`failing` store) or the stored value is unparseable,
`loadDefaults` returns the empty defaults record instead of raising; when
writing or clearing throws, the store is left unchanged and a diagnostic is
logged; no persistence error is surfaced (all three operations are total). -/
theorem C9_confirmed (parse : String → Option DefaultsConfig) (d : DefaultsConfig)
    (serialize : DefaultsConfig → String) (st : Store) :
    (st.failing = true → (loadDefaults parse st).1 = emptyDefaults) ∧
    (∀ s, st.data = some s → parse s = none → (loadDefaults parse st).1 = emptyDefaults) ∧
    (st.failing = true →
      (saveDefaults d serialize st).1 = st ∧ (saveDefaults d serialize st).2 ≠ []) ∧
    (st.failing = true → (clearDefaults st).1 = st ∧ (clearDefaults st).2 ≠ []) := by
  refine ⟨fun hf => ?_, fun s hs hp => ?_, fun hf => ?_, fun hf => ?_⟩
  · simp [loadDefaults, hf]
  · by_cases hf : st.failing
    · simp [loadDefaults, hf]
    · simp only [loadDefaults, hf, Bool.false_eq_true, if_false, hs, hp]
      by_cases ht : truthy s <;> simp [ht]
  · simp [saveDefaults, hf]
  · simp [clearDefaults, hf]

/-- **C9, witness**: a failing store with an unparseable value — the load
falls back to the empty record and the save leaves the store unchanged. -/
theorem C9_confirmed_witness :
    (loadDefaults (fun _ => none) { data := some "garbage", failing := true }).1 =
      emptyDefaults ∧
    (saveDefaults emptyDefaults (fun _ => "") { data := some "garbage", failing := true }).1 =
      { data := some "garbage", failing := true } := by
  have h := C9_confirmed (fun _ => none) emptyDefaults (fun _ => "")
    { data := some "garbage", failing := true }
  exact ⟨h.1 rfl, (h.2.2.1 rfl).1⟩

/-! ### Helper lemmas about the closing-line search and the post-closing filter -/

theorem findClosingIdx_bound :
    ∀ (ls : List String) (k i : ℕ), findClosingIdx k ls = some i → k ≤ i ∧ i - k < ls.length := by
  intro ls
  induction ls with
  | nil => intro k i h; simp [findClosingIdx] at h
  | cons l ls ih =>
    intro k i h
    rw [findClosingIdx] at h
    split at h
    · cases h
      simp
    · have := ih (k + 1) i h
      constructor
      · omega
      · simp only [List.length_cons]
        omega

theorem removeContactLines_drop (o : PDFOptions) (lines : List String) (i : ℕ)
    (hidx : findClosingIdx 0 lines = some i) :
    (removeContactLines o lines).drop (i + 1) =
      (lines.drop (i + 1)).filter (fun l => !droppedLine o l) := by
  have hb := findClosingIdx_bound lines 0 i hidx
  have hlen : (lines.take (i + 1)).length = i + 1 := by
    rw [List.length_take]
    omega
  simp only [removeContactLines, hidx]
  rw [List.drop_left' hlen]

/-- **C2, counterexample.** A letter that fills the first page down to
`y = 258.5`: the sender name is present, the last nonblank line is a closing,
and the name does not occur in the content — yet the signature block is
omitted entirely (no page break is started), because the block is also
guarded by `y < pageHeight - bottomMargin - lineHeight·3 ≈ 254`. -/
theorem C2_counterexample :
    sigConditions nameOnlyOpts (cleanContent nameOnlyOpts fullPageContent) = true ∧
    ¬ ((generatePDFMain fullPageContent nameOnlyOpts "November 5, 2025" (fun s => [s])).2.y
        < pageHeight - bottomMargin - lineHeight * 3) ∧
    (signatureBlock nameOnlyOpts (cleanContent nameOnlyOpts fullPageContent)
        (generatePDFMain fullPageContent nameOnlyOpts "November 5, 2025" (fun s => [s])).2).1
      = [] := by
  refine ⟨by decide, ?_⟩
  norm_num +decide [generatePDFMain, headerBlock, dateBlock, recipientBlock,
    bodyLayout, cleanContent, normalizeSalutation, removeContactInfo, truthy,
    signatureBlock, sigConditions, groupNonEmpty, groupStep, groupFlush,
    emitParagraphs, emitLines, emitLine, emitSubLines, splitNl,
    joinNl, optLine, fullPageContent, nameOnlyOpts,
    pageHeight, topMargin, leftMargin, bottomMargin, lineHeight, paragraphSpacing]

/-- `sigImageInstrs` never starts a page: the resulting cursor and every
emitted instruction stay on the incoming page. -/
theorem sigImageInstrs_page (o : PDFOptions) (st : LS) :
    (sigImageInstrs o st).2.page = st.page ∧
    ∀ i ∈ (sigImageInstrs o st).1, instrPage i = st.page := by
  cases hs : o.signature with
  | none => simp [sigImageInstrs, hs]
  | some sig =>
    simp only [sigImageInstrs, hs]
    split_ifs <;> simp [instrPage]

/-- **C2, amended.** The signature block is emitted *iff* the three content
conditions hold **and** `y < pageHeight - bottomMargin - lineHeight·3`; when
it is emitted but `y + lineHeight·5` would overflow the printable area, a new
page is started and the whole block lands on it.  (The claim as stated fails
because, when the three conditions hold but `y` is at or past the threshold,
the block is omitted rather than moved to a new page.) -/
theorem C2_amended (o : PDFOptions) (cleaned : String) (st : LS) :
    ((signatureBlock o cleaned st).1 ≠ [] ↔
      sigConditions o cleaned = true ∧
        st.y < pageHeight - bottomMargin - lineHeight * 3) ∧
    (sigConditions o cleaned = true →
      st.y < pageHeight - bottomMargin - lineHeight * 3 →
      pageHeight - bottomMargin < st.y + lineHeight * 5 →
      ∀ i ∈ (signatureBlock o cleaned st).1, instrPage i = st.page + 1) := by
  constructor
  · constructor
    · intro hne
      by_contra hcond
      simp only [signatureBlock, if_neg hcond] at hne
      exact hne rfl
    · intro hcond
      simp only [signatureBlock, if_pos hcond]
      simp
  · intro h1 h2 h3 i hi
    simp only [signatureBlock, if_pos (And.intro h1 h2), if_pos h3] at hi
    have hp := sigImageInstrs_page o { page := st.page + 1, y := topMargin }
    simp only [List.mem_append, List.mem_singleton] at hi
    rcases hi with hi | rfl
    · exact hp.2 i hi
    · simp [instrPage, hp.1]

/-- **C2, witness** for the amended theorem: at `y = 250` (inside the rescue
window) the block is emitted on a fresh page. -/
theorem C2_amended_witness :
    (signatureBlock nameOnlyOpts "Sincerely," { page := 0, y := 250 }).1 ≠ [] ∧
    instrPage (Instr.text 1 25 42 "Jane Doe") = 0 + 1 := by
  have h := C2_amended nameOnlyOpts "Sincerely," { page := 0, y := 250 }
  constructor
  · exact h.1.mpr ⟨by decide, by norm_num [pageHeight, bottomMargin, lineHeight]⟩
  · refine h.2 (by decide) (by norm_num [pageHeight, bottomMargin, lineHeight])
      (by norm_num [pageHeight, bottomMargin, lineHeight])
      (Instr.text 1 25 42 "Jane Doe") ?_
    norm_num +decide [signatureBlock, sigConditions, sigImageInstrs, nameOnlyOpts, truthy,
      pageHeight, bottomMargin, lineHeight, topMargin, leftMargin]

/-- **C6, counterexample.** With *only* the sender name `"Jane Doe"` supplied
(as the claim states it) and the body ending
`"Sincerely,\nJane Doe\njane@x.com"`, the line `"jane@x.com"` is *not*
dropped (it matches none of the supplied contact fields), and consequently
the signature block is not appended (the last nonblank line is no longer a
closing). -/
theorem C6_counterexample :
    cleanContent nameOnlyOpts "Thanks.\n\nSincerely,\nJane Doe\njane@x.com" =
      "Thanks.\n\nSincerely,\njane@x.com" ∧
    sigConditions nameOnlyOpts
      (cleanContent nameOnlyOpts "Thanks.\n\nSincerely,\nJane Doe\njane@x.com") = false := by
  decide

/-- **C6, amended.** Every post-closing line matching a *supplied* contact
field is removed, and the claimed example behaviour holds once the sender's
email `"jane@x.com"` is also supplied: both trailing lines are dropped and
the signature block is appended (the typed name is the final instruction). -/
theorem C6_amended (o : PDFOptions) (lines : List String) (i : ℕ)
    (hidx : findClosingIdx 0 lines = some i) :
    (∀ l ∈ (removeContactLines o lines).drop (i + 1), contactHit o l = false) ∧
    cleanContent nameEmailOpts "Thanks.\n\nSincerely,\nJane Doe\njane@x.com" =
      "Thanks.\n\nSincerely," ∧
    (generatePDF "Thanks.\n\nSincerely,\nJane Doe\njane@x.com" nameEmailOpts
        "November 5, 2025" (fun s => [s])).getLast? =
      some (Instr.text 0 25 137 "Jane Doe") := by
  refine ⟨fun l hl => ?_, by decide, ?_⟩
  · rw [removeContactLines_drop o lines i hidx] at hl
    have hfl := (List.mem_filter.mp hl).2
    simp only [Bool.not_eq_eq_eq_not, Bool.not_true, droppedLine,
      Bool.or_eq_false_iff] at hfl
    exact hfl.2
  · norm_num +decide [generatePDF, generatePDFMain, headerBlock, dateBlock, recipientBlock,
      bodyLayout, cleanContent, normalizeSalutation, removeContactInfo, truthy,
      signatureBlock, sigConditions, sigImageInstrs,
      groupNonEmpty, groupStep, groupFlush,
      emitParagraphs, emitLines, emitLine, emitSubLines, splitNl,
      joinNl, optLine, nameEmailOpts,
      pageHeight, topMargin, leftMargin, bottomMargin, lineHeight, paragraphSpacing]

/-- **C6, witness** for the amended theorem: in
`["Sincerely,", "Jane Doe", "PS"]` the retained post-closing line `"PS"`
matches no contact field. -/
theorem C6_amended_witness :
    contactHit nameEmailOpts "PS" = false :=
  (C6_amended nameEmailOpts ["Sincerely,", "Jane Doe", "PS"] 0 (by decide)).1 "PS" (by decide)

/-- **C10, confirmed.** When sender contact info is present and a closing
line is found, the post-closing filter removes every blank line
unconditionally: no line of the retained post-closing suffix is blank. -/
theorem C10_confirmed (o : PDFOptions) (content : String) (i : ℕ)
    (hc : (truthy o.fullName || truthy o.email || truthy o.phone) = true)
    (hidx : findClosingIdx 0 (splitNl content) = some i) :
    removeContactInfo o content = joinNl (removeContactLines o (splitNl content)) ∧
    ∀ l ∈ (removeContactLines o (splitNl content)).drop (i + 1),
      (trimStr l == "") = false := by
  constructor
  · simp [removeContactInfo, hc]
  · intro l hl
    rw [removeContactLines_drop o _ i hidx] at hl
    have hfl := (List.mem_filter.mp hl).2
    simp only [Bool.not_eq_eq_eq_not, Bool.not_true, droppedLine,
      Bool.or_eq_false_iff] at hfl
    exact hfl.1

/-- **C10, witness**: in `"Sincerely,\n\nPS"` the blank line after the
closing is removed and the retained `"PS"` is nonblank. -/
theorem C10_confirmed_witness :
    (trimStr "PS" == "") = false :=
  (C10_confirmed nameOnlyOpts "Sincerely,\n\nPS" 0 (by decide) (by decide)).2 "PS" (by decide)

/-- **C8, confirmed.** When the signature block is being emitted with a
truthy image whose dimensions are not synchronously available, a placed
image box sized from the fallback aspect ratio 200/800 constrained to the
envelope — i.e. 100 × 25 — is emitted (no exception, no blocking: the
embedding is a total function); and when `doc.addImage` throws, the fixed
80 × 20 placeholder is emitted instead, so the signature is never silently
omitted. -/
theorem C8_confirmed (o : PDFOptions) (cleaned : String) (st : LS) (sig : SigImage)
    (hsig : o.signature = some sig)
    (hdata : (trimStr sig.data != "") = true)
    (hcond : sigConditions o cleaned = true)
    (hy : st.y < pageHeight - bottomMargin - lineHeight * 3)
    (hload : (sig.loaded && decide (0 < sig.naturalWidth) && decide (0 < sig.naturalHeight))
      = false) :
    (sig.embedFails = false →
      ∃ p y, Instr.image p leftMargin y 100 25 sig.data ∈ (signatureBlock o cleaned st).1) ∧
    (sig.embedFails = true →
      ∃ p y, Instr.image p leftMargin y 80 20 sig.data ∈ (signatureBlock o cleaned st).1) := by
  have hest : sigEstDims = (100, 25) := by norm_num [sigEstDims]
  refine ⟨fun hef => ?_, fun hef => ?_⟩ <;>
  · simp only [signatureBlock, if_pos (And.intro hcond hy)]
    by_cases hpb : pageHeight - bottomMargin < st.y + lineHeight * 5
    · rw [if_pos hpb]
      simp [sigImageInstrs, hsig, hdata, hef, hload, hest]
    · rw [if_neg hpb]
      simp [sigImageInstrs, hsig, hdata, hef, hload, hest]

/-! ### Helper lemmas for the page-break invariant (claim C1) -/

/-- Every sub-line drawn by the body layout satisfies
`y + lineHeight ≤ pageHeight - bottomMargin`: the page-break check runs
before each draw, and after a break the cursor is at the top margin. -/
theorem emitSubLines_instrY (ws : List String) :
    ∀ (st : LS), ∀ i ∈ (emitSubLines st ws).1,
      instrY i + lineHeight ≤ pageHeight - bottomMargin := by
  induction ws with
  | nil => intro st i hi; simp [emitSubLines] at hi
  | cons w ws ih =>
    intro st i hi
    simp only [emitSubLines, List.mem_cons] at hi
    rcases hi with rfl | hi
    · simp only [instrY]
      by_cases h : pageHeight - bottomMargin < st.y + lineHeight
      · rw [if_pos h]
        norm_num [pageHeight, bottomMargin, topMargin, lineHeight]
      · rw [if_neg h]
        exact le_of_not_lt h
    · exact ih _ i hi

theorem emitLine_instrY (wrap : String → List String) (pIdx : ℕ) (st : LS) (line : String) :
    ∀ i ∈ (emitLine wrap pIdx st line).1,
      instrY i + lineHeight ≤ pageHeight - bottomMargin := by
  intro i hi
  simp only [emitLine] at hi
  exact emitSubLines_instrY (wrap line) _ i hi

theorem emitLines_instrY (wrap : String → List String) (pIdx : ℕ) (ls : List String) :
    ∀ (st : LS), ∀ i ∈ (emitLines wrap pIdx st ls).1,
      instrY i + lineHeight ≤ pageHeight - bottomMargin := by
  induction ls with
  | nil => intro st i hi; simp [emitLines] at hi
  | cons l ls ih =>
    intro st i hi
    simp only [emitLines, List.mem_append] at hi
    rcases hi with hi | hi
    · exact emitLine_instrY wrap pIdx st l i hi
    · exact ih _ i hi

theorem emitParagraphs_instrY (wrap : String → List String) (total : ℕ)
    (ps : List (List String)) :
    ∀ (idx : ℕ) (st : LS), ∀ i ∈ (emitParagraphs wrap total idx st ps).1,
      instrY i + lineHeight ≤ pageHeight - bottomMargin := by
  induction ps with
  | nil => intro idx st i hi; simp [emitParagraphs] at hi
  | cons p ps ih =>
    intro idx st i hi
    simp only [emitParagraphs, List.mem_append] at hi
    rcases hi with hi | hi
    · exact emitLines_instrY wrap idx p st i hi
    · exact ih _ _ i hi

theorem bodyLayout_instrY (wrap : String → List String) (st : LS) (content : String) :
    ∀ i ∈ (bodyLayout wrap st content).1,
      instrY i + lineHeight ≤ pageHeight - bottomMargin := by
  intro i hi
  simp only [bodyLayout] at hi
  exact emitParagraphs_instrY wrap _ _ 0 st i hi

theorem optLine_instrY (c : Bool) (s : String) (dy : ℚ) (st : LS) :
    ∀ i ∈ (optLine c s dy st).1, instrY i = st.y := by
  unfold optLine
  split <;> simp [instrY]

theorem optLine_y (c : Bool) (s : String) (dy : ℚ) (st : LS) (h : 0 ≤ dy) :
    st.y ≤ (optLine c s dy st).2.y ∧ (optLine c s dy st).2.y ≤ st.y + dy := by
  unfold optLine
  split <;> constructor <;> simp <;> linarith

/-- The header block emits all of its text within 13 units below the
incoming cursor and advances the cursor by at most `57/2`. -/
theorem headerBlock_bounds (o : PDFOptions) (st : LS) :
    (∀ i ∈ (headerBlock o st).1, st.y ≤ instrY i ∧ instrY i ≤ st.y + 13) ∧
    st.y ≤ (headerBlock o st).2.y ∧ (headerBlock o st).2.y ≤ st.y + 57 / 2 := by
  have hl : lineHeight = 6 := rfl
  have hp : paragraphSpacing = 7 := rfl
  have b1 := optLine_y (truthy o.fullName) o.fullName (lineHeight + 3 / 2) st
    (by norm_num [lineHeight])
  have b2 := optLine_y (truthy o.email) o.email (lineHeight - 1 / 2)
    (optLine (truthy o.fullName) o.fullName (lineHeight + 3 / 2) st).2
    (by norm_num [lineHeight])
  have b3 := optLine_y (truthy o.phone) o.phone (lineHeight - 1 / 2)
    (optLine (truthy o.email) o.email (lineHeight - 1 / 2)
      (optLine (truthy o.fullName) o.fullName (lineHeight + 3 / 2) st).2).2
    (by norm_num [lineHeight])
  have m1 := optLine_instrY (truthy o.fullName) o.fullName (lineHeight + 3 / 2) st
  have m2 := optLine_instrY (truthy o.email) o.email (lineHeight - 1 / 2)
    (optLine (truthy o.fullName) o.fullName (lineHeight + 3 / 2) st).2
  have m3 := optLine_instrY (truthy o.phone) o.phone (lineHeight - 1 / 2)
    (optLine (truthy o.email) o.email (lineHeight - 1 / 2)
      (optLine (truthy o.fullName) o.fullName (lineHeight + 3 / 2) st).2).2
  simp only [headerBlock]
  split
  · refine ⟨fun i hi => ?_, ?_, ?_⟩
    · simp only [List.mem_append] at hi
      rcases hi with (hi | hi) | hi
      · have := m1 i hi
        rw [this]
        constructor <;> linarith
      · have := m2 i hi
        rw [this]
        constructor <;> linarith
      · have := m3 i hi
        rw [this]
        constructor <;> linarith
    · dsimp only
      linarith
    · dsimp only
      linarith
  · exact ⟨by simp, le_refl _, by linarith⟩

/-- **C1, counterexample.** The claimed invariant fails for the signature
block: for the letter `"Sincerely,"` from `"Jane Doe"` with a 10 × 100
signature image, the typed-name instruction is drawn at `y = 614.5`, far
below `pageHeight - bottomMargin ≈ 272` — the signature block performs no
page-break check after placing the (tall) image. -/
theorem C1_counterexample :
    generatePDF "Sincerely," tallSigOpts "November 5, 2025" (fun s => [s]) =
      [Instr.text 0 25 30 "Jane Doe",
       Instr.text 0 25 (95 / 2) "November 5, 2025",
       Instr.text 0 25 (151 / 2) "Sincerely,",
       Instr.image 0 25 (211 / 2) 50 500 "sig",
       Instr.text 0 25 (1229 / 2) "Jane Doe"] ∧
    pageHeight - bottomMargin < 1229 / 2 := by
  norm_num +decide [generatePDF, generatePDFMain, headerBlock, dateBlock, recipientBlock,
    bodyLayout, cleanContent, normalizeSalutation, removeContactInfo, truthy,
    signatureBlock, sigConditions, sigImageInstrs, sigDims, tallSigOpts,
    groupNonEmpty, groupStep, groupFlush,
    emitParagraphs, emitLines, emitLine, emitSubLines, splitNl,
    joinNl, optLine, pageHeight, topMargin, leftMargin, bottomMargin, lineHeight,
    paragraphSpacing]

/-- **C1, amended.** The page-break invariant holds for every phase *before*
the signature block: every header, date, recipient and body text instruction
is placed at `y ≤ pageHeight - bottomMargin` (body sub-lines even satisfy
`y + lineHeight ≤ pageHeight - bottomMargin`).  Only the signature block —
which performs no page-break check after placing the image — can draw below
the bottom margin. -/
theorem C1_amended (content : String) (o : PDFOptions) (dateStr : String)
    (wrap : String → List String) :
    ∀ i ∈ (generatePDFMain content o dateStr wrap).1,
      instrY i ≤ pageHeight - bottomMargin := by
  intro i hi
  have hH := headerBlock_bounds o { page := 0, y := topMargin }
  have htop : ({ page := 0, y := topMargin } : LS).y = 30 := rfl
  rw [htop] at hH
  simp only [generatePDFMain, List.mem_append] at hi
  rcases hi with ((hi | hi) | hi) | hi
  · have h2 := (hH.1 i hi).2
    norm_num [pageHeight, bottomMargin]
    linarith
  · simp only [dateBlock, List.mem_singleton] at hi
    subst hi
    simp only [instrY]
    have := hH.2.2
    norm_num [pageHeight, bottomMargin]
    linarith
  · simp only [recipientBlock] at hi
    split at hi
    · simp only [List.mem_singleton] at hi
      subst hi
      simp only [instrY, dateBlock]
      have := hH.2.2
      norm_num [pageHeight, bottomMargin, paragraphSpacing]
      linarith
    · simp at hi
  · have := bodyLayout_instrY wrap _ _ i hi
    norm_num [lineHeight] at this
    linarith

/-- **C1, witness** for the amended theorem: the body line of the minimal
letter is drawn at `y = 49`, above the bottom margin. -/
theorem C1_amended_witness :
    instrY (Instr.text 0 25 49 "Hello") ≤ pageHeight - bottomMargin :=
  C1_amended "Hello" {} "January 1, 2025" (fun s => [s]) (Instr.text 0 25 49 "Hello") (by
    norm_num +decide [generatePDFMain, headerBlock, dateBlock, recipientBlock,
      bodyLayout, cleanContent, normalizeSalutation, removeContactInfo, truthy,
      groupNonEmpty, groupStep, groupFlush, emitParagraphs, emitLines, emitLine,
      emitSubLines, splitNl, joinNl, optLine,
      pageHeight, topMargin, leftMargin, bottomMargin, lineHeight, paragraphSpacing])

/-- **C8, witness**: a not-yet-loaded image yields the 100 × 25 estimated
box; a throwing image yields the 80 × 20 placeholder. -/
theorem C8_confirmed_witness :
    (∃ p y, Instr.image p leftMargin y 100 25 "sig" ∈
      (signatureBlock unloadedSigOpts "Sincerely," { page := 0, y := 100 }).1) ∧
    (∃ p y, Instr.image p leftMargin y 80 20 "sig" ∈
      (signatureBlock failingSigOpts "Sincerely," { page := 0, y := 100 }).1) := by
  constructor
  · exact (C8_confirmed unloadedSigOpts "Sincerely," { page := 0, y := 100 } _ rfl
      (by decide) (by decide) (by norm_num [pageHeight, bottomMargin, lineHeight])
      (by simp)).1 rfl
  · exact (C8_confirmed failingSigOpts "Sincerely," { page := 0, y := 100 } _ rfl
      (by decide) (by decide) (by norm_num [pageHeight, bottomMargin, lineHeight])
      (by simp)).2 rfl

end CoverLetter

